import Mathlib

/-!
Shallow embedding of `src/static/js/dashboard.js` (browser-side admin
dashboard: session guard, product CRUD client, config client, modal/tab UI
state, notification banner), together with theorems checking the
specification's claims against it.

Conventions of the embedding:
* JavaScript values that may be `null`/`undefined`/absent are modelled as
  `Option`; JS truthiness of strings (falsy iff null/undefined/empty) and of
  numbers (falsy iff absent or zero) is made explicit via `jsTruthy…`.
* JS numbers carrying prices are modelled as `Rat` (the concrete values in
  the claims, 9.5 and 0, are exactly representable, so no float rounding is
  involved).
* Each `fetch` handler is split into the request it issues and a pure
  function from the received response to the list of observable effects
  (`Action`), translated clause by clause from the source.
* DOM state touched by the script (modal class list, form field values,
  the notification element) is collected in `DashState`; template whitespace
  in rendered HTML is normalised (single spaces), which no claim depends on.
-/

namespace Dashboard

/-- JS truthiness of a possibly-null/undefined string:
falsy iff absent or the empty string. -/
def jsTruthyOptStr : Option String → Bool
  | none => false
  | some s => !(s == "")

/-- JS `x || dflt` for a possibly-null/undefined string `x`. -/
def jsOrStr (o : Option String) (dflt : String) : String :=
  if jsTruthyOptStr o then o.getD "" else dflt

/-- JS truthiness of a possibly-absent number: falsy iff absent or zero. -/
def jsTruthyOptRat : Option Rat → Bool
  | none => false
  | some q => decide (q ≠ 0)

/-- JS truthiness of the possibly-null integer `currentEditId`:
falsy iff null or zero. -/
def jsTruthyOptInt : Option Int → Bool
  | none => false
  | some n => decide (n ≠ 0)

/-- A product as returned by `GET /api/products` (data model of the source:
`id`, `name`, optional `description`, optional `price`, optional base64
`image`). -/
structure Product where
  id : Int
  name : String
  description : Option String
  price : Option Rat
  image : Option String
  deriving DecidableEq

/-- Observable effects performed by the script's handlers. -/
inductive Action where
  | request (method url header : String)
  | removeToken
  | redirect (url : String)
  | setMessage (text cls : String)
  | setListHTML (html : String)
  | closeModal
  | reloadProducts
  deriving DecidableEq

/-- The `Authorization` header value built at the top of the script:
`Bearer ${token}`. When `localStorage.getItem` returned `null`, template
interpolation yields the literal string `Bearer null`. -/
def authHeaderValue : Option String → String
  | none => "Bearer null"
  | some s => "Bearer " ++ s

/-- Top-level script execution (lines 4-7 and the final `loadProducts()`
call, line 296 area). Assigning `window.location.href` does not stop a
running script and the guard has no other early-exit, so execution falls
through to the trailing `loadProducts()`, whose `fetch('/api/products', ...)`
is issued synchronously before the navigation can take effect. -/
def scriptLoad (tok : Option String) : List Action :=
  (if jsTruthyOptStr tok then [] else [Action.redirect "/login"])
    ++ [Action.request "GET" "/api/products" (authHeaderValue tok)]

/-- Two-digit cents rendering: `c` cents as `"<int>.<2 digits>"`. -/
def natCentsStr (c : Nat) : String :=
  toString (c / 100) ++ "." ++
    (if c % 100 < 10 then "0" ++ toString (c % 100) else toString (c % 100))

/-- JS `Number.prototype.toFixed(2)`: round to 2 decimal places, ties away
from zero, on the exact (rational) value. For a non-negative `q` with
numerator `n` and denominator `d`, the rounded cents are
`⌊q*100 + 1/2⌋ = (n*200 + d) / (2*d)` in natural division. -/
def toFixed2 (q : Rat) : String :=
  if q < 0 then
    "-" ++ natCentsStr (((-q).num.toNat * 200 + (-q).den) / (2 * (-q).den))
  else
    natCentsStr ((q.num.toNat * 200 + q.den) / (2 * q.den))

/-- Interpolation `${x}` of a possibly-absent value into a template string:
an absent property interpolates as the literal text `undefined`. -/
def jsInterpOpt : Option String → String
  | none => "undefined"
  | some s => s

/-- Opening fragment of a product card, up to the optional description line
(the `<div class="product-item">` and `<img>`/`<h4>` parts of the template
in `loadProducts`). -/
def cardHead (p : Product) : String :=
  "<div class=\"product-item\">" ++
  "<img src=\"data:image/jpeg;base64," ++ jsInterpOpt p.image ++
  "\" alt=\"" ++ p.name ++ "\">" ++
  "<div class=\"product-item-info\">" ++
  "<h4>" ++ p.name ++ "</h4>"

/-- The optional description line: `${p.description ? `<p>…</p>` : ''}` —
gated on JS truthiness of `p.description`. -/
def descLine (p : Product) : String :=
  if jsTruthyOptStr p.description then "<p>" ++ p.description.getD "" ++ "</p>"
  else ""

/-- The optional price line:
`${p.price ? `<p><strong>$${p.price.toFixed(2)}</strong></p>` : ''}` —
gated on JS truthiness of `p.price`. -/
def priceLine (p : Product) : String :=
  if jsTruthyOptRat p.price then
    "<p><strong>$" ++ toFixed2 (p.price.getD 0) ++ "</strong></p>"
  else ""

/-- Closing fragment of a product card (the action buttons and closing
tags). -/
def cardTail (p : Product) : String :=
  "</div>" ++
  "<div class=\"product-item-actions\">" ++
  "<button class=\"btn-edit\" onclick=\"editProduct(" ++ toString p.id ++
  ")\">Editar</button>" ++
  "<button class=\"btn-delete\" onclick=\"deleteProduct(" ++ toString p.id ++
  ")\">Eliminar</button>" ++
  "</div></div>"

/-- One rendered product card from the `products.map(p => …)` template. -/
def renderCard (p : Product) : String :=
  cardHead p ++ descLine p ++ priceLine p ++ cardTail p

/-- The placeholder shown when the product list is empty. -/
def noProductsHTML : String :=
  "<p class=\"no-products\">No hay productos. Agrega el primero.</p>"

/-- The `productsList.innerHTML` value computed by `loadProducts`:
placeholder for an empty array, otherwise `products.map(renderCard).join('')`. -/
def renderProducts (ps : List Product) : String :=
  if ps.length = 0 then noProductsHTML else String.join (ps.map renderCard)

/-- Response to the product-list fetch. `products = none` models a body on
which `response.json()` rejects (no/invalid JSON), which lands in the
surrounding `catch`. -/
structure ListResponse where
  status : Nat
  products : Option (List Product)
  deriving DecidableEq

/-- The error-`detail` JSON body shape read by the save handler. -/
structure DetailBody where
  detail : Option String
  deriving DecidableEq

/-- Response to the save/delete/config fetches. `json = none` models a body
on which `response.json()` rejects. -/
structure Response where
  status : Nat
  json : Option DetailBody
  deriving DecidableEq

/-- JS `Response.ok`: status in the range 200-299. -/
def respOk (r : Response) : Bool :=
  decide (200 ≤ r.status) && decide (r.status ≤ 299)

/-- `loadProducts` response handling: a 401 removes the token and redirects
to `/login` and nothing else runs; otherwise the JSON body is rendered into
the list element, and a `json()` rejection falls to the `catch`, which shows
the generic load-error message. -/
def loadProductsOnResponse (r : ListResponse) : List Action :=
  if r.status = 401 then [Action.removeToken, Action.redirect "/login"]
  else
    match r.products with
    | some ps => [Action.setListHTML (renderProducts ps)]
    | none => [Action.setMessage "Error al cargar productos" "error"]

/-- The request line chosen by the product-form submit handler: POST to
`/api/products` unless `currentEditId` is truthy, in which case PUT to
`/api/products/${currentEditId}`. -/
def saveRequestTarget (cid : Option Int) : String × String :=
  if jsTruthyOptInt cid then ("PUT", "/api/products/" ++ toString (cid.getD 0))
  else ("POST", "/api/products")

/-- Product-save response handling: on `response.ok` show the success
message, close the modal and reload the list; otherwise `await
response.json()` — if it yields a body, show `data.detail || generic`;
if it rejects (no JSON body), control reaches the `catch`, which shows the
connection-error message. -/
def saveOnResponse (r : Response) : List Action :=
  if respOk r then
    [Action.setMessage "Producto guardado exitosamente" "success",
     Action.closeModal, Action.reloadProducts]
  else
    match r.json with
    | some b =>
        [Action.setMessage (jsOrStr b.detail "Error al guardar producto") "error"]
    | none => [Action.setMessage "Error de conexión" "error"]

/-- `deleteProduct` response handling (after the interactive confirm):
success message and reload on `ok`, generic delete-error message otherwise —
the status code is never inspected beyond `ok`. -/
def deleteProductOnResponse (r : Response) : List Action :=
  if respOk r then
    [Action.setMessage "Producto eliminado exitosamente" "success",
     Action.reloadProducts]
  else [Action.setMessage "Error al eliminar producto" "error"]

/-- Config-save response handling: success or generic error message —
the status code is never inspected beyond `ok`. -/
def configSaveOnResponse (r : Response) : List Action :=
  if respOk r then
    [Action.setMessage "Configuración guardada exitosamente" "success"]
  else [Action.setMessage "Error al guardar configuración" "error"]

/-- The product form's field values and attributes touched by the script.
`price = none` models the empty string in the numeric input. -/
structure FormState where
  productId : String
  name : String
  description : String
  price : Option Rat
  imageRequired : Bool
  previewVisible : Bool
  previewSrc : String
  deriving DecidableEq

/-- The UI state the script mutates: `currentEditId`, the modal's `active`
class, the modal title, the form, and the notification element's text and
class name. -/
structure DashState where
  currentEditId : Option Int
  modalOpen : Bool
  modalTitle : String
  form : FormState
  notifText : String
  notifCls : String
  deriving DecidableEq

/-- State at script start: `currentEditId = null`, modal closed, empty
form, empty notification with base class `message`. -/
def initState : DashState :=
  { currentEditId := none
    modalOpen := false
    modalTitle := ""
    form := { productId := "", name := "", description := "", price := none,
              imageRequired := true, previewVisible := false, previewSrc := "" }
    notifText := ""
    notifCls := "message" }

/-- `addBtn.onclick`: clear `currentEditId`, set the create title, reset the
form (values only — `form.reset()` does not touch attributes), blank the
hidden id, hide the preview, make the image input required, open the modal. -/
def addBtnClick (s : DashState) : DashState :=
  { s with
    currentEditId := none
    modalTitle := "Agregar Producto"
    modalOpen := true
    form := { s.form with
              productId := "", name := "", description := "", price := none,
              imageRequired := true, previewVisible := false } }

/-- `closeProductModal` (also run by the outside-click handler): removes the
modal's `active` class. Nothing else is touched — in particular
`currentEditId` keeps its value. -/
def closeProductModal (s : DashState) : DashState :=
  { s with modalOpen := false }

/-- `editProduct(id)` once its list fetch has resolved to `ps`: find the
product client-side; when found, set `currentEditId`, the edit title, copy
`name`, `description || ''` and `price || ''` into the form, drop the image
requirement, show the existing image if truthy, and open the modal; when not
found, the `if (product)` guard skips everything and no message is shown. -/
def editProductResolved (s : DashState) (id : Int) (ps : List Product) :
    DashState :=
  match ps.find? (fun p => p.id == id) with
  | none => s
  | some p =>
      { s with
        currentEditId := some id
        modalTitle := "Editar Producto"
        modalOpen := true
        form := { s.form with
                  productId := toString id
                  name := p.name
                  description := jsOrStr p.description ""
                  price := if jsTruthyOptRat p.price then p.price else none
                  imageRequired := false
                  previewVisible :=
                    if jsTruthyOptStr p.image then true else s.form.previewVisible
                  previewSrc :=
                    if jsTruthyOptStr p.image then
                      "data:image/jpeg;base64," ++ p.image.getD ""
                    else s.form.previewSrc } }

/-- How the state-visible effects of an action land on the UI state
(`showMessage` sets the text and the class `message ${type}`;
`closeProductModal` drops the `active` class). -/
def applyAction (s : DashState) : Action → DashState
  | Action.setMessage t c => { s with notifText := t, notifCls := "message " ++ c }
  | Action.closeModal => { s with modalOpen := false }
  | _ => s

/-- The user/network events that drive the modal state machine. -/
inductive Event where
  | clickAdd
  | clickClose
  | clickOutsideModal
  | editResolved (id : Int) (fetched : List Product)
  | saveResponse (r : Response)
  deriving DecidableEq

/-- One event-handler dispatch. -/
def step (s : DashState) : Event → DashState
  | Event.clickAdd => addBtnClick s
  | Event.clickClose => closeProductModal s
  | Event.clickOutsideModal => closeProductModal s
  | Event.editResolved id ps => editProductResolved s id ps
  | Event.saveResponse r => (saveOnResponse r).foldl applyAction s

/-- Run a sequence of events from a state: the reachable UI states are
exactly the values of `run initState es`. -/
def run (s : DashState) (es : List Event) : DashState := es.foldl step s

/-- The notification element: its text content and class name. -/
structure MsgState where
  text : String
  cls : String
  deriving DecidableEq

/-- Notification element before any message: empty text, base class. -/
def initMsg : MsgState := { text := "", cls := "message" }

/-- The two things that happen to the notification element: a
`showMessage(text, type)` call, and the firing of one of the scheduled
`setTimeout` clears. -/
inductive NEvent where
  | show (text cls : String)
  | fire
  deriving DecidableEq

/-- `showMessage` body: set the text and the class `message ${type}`
(overwriting whatever was there); a timer firing resets the class name to
`message` unconditionally — the text is not touched and no timer is ever
cancelled. -/
def stepMsg (m : MsgState) : NEvent → MsgState
  | NEvent.show t c => { text := t, cls := "message " ++ c }
  | NEvent.fire => { m with cls := "message" }

/-- Insert a timestamped event keeping the list sorted by time (stable:
an event is placed after existing events with the same time). -/
def insertByTime (e : Nat × NEvent) : List (Nat × NEvent) → List (Nat × NEvent)
  | [] => [e]
  | x :: xs => if e.1 < x.1 then e :: x :: xs else x :: insertByTime e xs

/-- Sort a timestamped event list by time. -/
def sortByTime : List (Nat × NEvent) → List (Nat × NEvent)
  | [] => []
  | x :: xs => insertByTime x (sortByTime xs)

/-- The full event timeline generated by a list of `showMessage(text, type)`
calls at given times: each call contributes its show event and, 4000 ms
later, the firing of the clear it scheduled (`setTimeout(…, 4000)` with no
`clearTimeout` anywhere). -/
def timelineOf (shows : List (Nat × String × String)) : List (Nat × NEvent) :=
  sortByTime
    (shows.map (fun e => (e.1, NEvent.show e.2.1 e.2.2)) ++
     shows.map (fun e => (e.1 + 4000, NEvent.fire)))

/-- The notification element's state at time `t`, given the `showMessage`
calls issued: all timeline events up to `t`, applied in order. -/
def displayAt (shows : List (Nat × String × String)) (t : Nat) : MsgState :=
  ((timelineOf shows).filter (fun e => decide (e.1 ≤ t))).foldl
    (fun m e => stepMsg m e.2) initMsg

/-- A concrete product, used at several concrete instantiations. -/
def sampleProduct : Product :=
  { id := 7, name := "Taza", description := some "Cerámica",
    price := some 25, image := some "abc" }

/-- A concrete product with price 9.5, for the price-formatting claim. -/
def priceProduct : Product :=
  { id := 1, name := "Vela", description := none,
    price := some (mkRat 19 2), image := none }

/-- A concrete product with price 0 and empty description, for the
truthiness-gating claim. -/
def zeroPriceProduct : Product :=
  { id := 2, name := "Regalo", description := some "",
    price := some 0, image := none }

end Dashboard

namespace Dashboard

/-- C1 (counterexample): a product-save response with HTTP status 401 does
not remove the stored token and does not redirect to `/login` — the submit
handler treats it like any other non-2xx response, refuting the claim that
every authenticated request's 401 response clears the token and redirects. -/
theorem C1_counterexample :
    Action.removeToken ∉
      saveOnResponse { status := 401, json := some { detail := some "Not authenticated" } } ∧
    Action.redirect "/login" ∉
      saveOnResponse { status := 401, json := some { detail := some "Not authenticated" } } := by
  decide

/-- C1 (amended): only the product-list fetch special-cases 401 — it removes
the token and redirects to `/login`; a 401 on product save, product delete,
or config save never removes the token or redirects, and delete and config
save show their generic error notification instead. -/
theorem C1_amended :
    (∀ r : ListResponse, r.status = 401 →
      loadProductsOnResponse r = [Action.removeToken, Action.redirect "/login"]) ∧
    (∀ r : Response, r.status = 401 →
      Action.removeToken ∉ saveOnResponse r ∧
      Action.redirect "/login" ∉ saveOnResponse r) ∧
    (∀ r : Response, r.status = 401 →
      deleteProductOnResponse r = [Action.setMessage "Error al eliminar producto" "error"] ∧
      Action.removeToken ∉ deleteProductOnResponse r ∧
      Action.redirect "/login" ∉ deleteProductOnResponse r) ∧
    (∀ r : Response, r.status = 401 →
      configSaveOnResponse r = [Action.setMessage "Error al guardar configuración" "error"] ∧
      Action.removeToken ∉ configSaveOnResponse r ∧
      Action.redirect "/login" ∉ configSaveOnResponse r) := by
  have hok : ∀ r : Response, r.status = 401 → respOk r = false := by
    intro r h
    simp [respOk, h]
  refine ⟨?_, ?_, ?_, ?_⟩
  · intro r h
    simp [loadProductsOnResponse, h]
  · intro r h
    cases hj : r.json with
    | none => simp [saveOnResponse, hok r h, hj]
    | some b => simp [saveOnResponse, hok r h, hj]
  · intro r h
    simp [deleteProductOnResponse, hok r h]
  · intro r h
    simp [configSaveOnResponse, hok r h]

/-- C1 (witness): the amended behaviour at concrete 401 responses. -/
theorem C1_amended_witness :
    loadProductsOnResponse { status := 401, products := some [] } =
      [Action.removeToken, Action.redirect "/login"] ∧
    (Action.removeToken ∉ saveOnResponse { status := 401, json := none } ∧
     Action.redirect "/login" ∉ saveOnResponse { status := 401, json := none }) ∧
    (deleteProductOnResponse { status := 401, json := none } =
       [Action.setMessage "Error al eliminar producto" "error"] ∧
     Action.removeToken ∉ deleteProductOnResponse { status := 401, json := none } ∧
     Action.redirect "/login" ∉ deleteProductOnResponse { status := 401, json := none }) ∧
    (configSaveOnResponse { status := 401, json := none } =
       [Action.setMessage "Error al guardar configuración" "error"] ∧
     Action.removeToken ∉ configSaveOnResponse { status := 401, json := none } ∧
     Action.redirect "/login" ∉ configSaveOnResponse { status := 401, json := none }) :=
  ⟨C1_amended.1 _ rfl, C1_amended.2.1 _ rfl, C1_amended.2.2.1 _ rfl,
   C1_amended.2.2.2 _ rfl⟩

/-- C2 (counterexample): with no token stored, the script still issues the
data request `GET /api/products` (with header `Bearer null`), refuting the
claim that no data request is issued. -/
theorem C2_counterexample :
    Action.request "GET" "/api/products" "Bearer null" ∈ scriptLoad none := by
  decide

/-- C2 (amended): with no token stored, a redirect to `/login` is initiated,
but since assigning `location.href` does not halt the script, execution
continues and the trailing `loadProducts()` still issues
`GET /api/products` with the authorization header `Bearer null`. -/
theorem C2_amended :
    scriptLoad none =
      [Action.redirect "/login",
       Action.request "GET" "/api/products" "Bearer null"] := by
  decide

/-- C3 (counterexample): the reachable state after opening the edit modal
for product 7 and closing it has the modal closed but `currentEditId = 7`,
refuting the claim that `currentEditId` is null whenever the modal is
closed. -/
theorem C3_counterexample :
    (run initState [Event.editResolved 7 [sampleProduct], Event.clickClose]).modalOpen
        = false ∧
    (run initState [Event.editResolved 7 [sampleProduct], Event.clickClose]).currentEditId
        = some 7 := by
  decide

/-- C3 (amended): closing the modal (close button or outside click) only
hides it and leaves `currentEditId` unchanged; `currentEditId` is reset to
null only when the create dialog is opened, so after an edit followed by a
close the modal is closed with `currentEditId` still set (shown here on the
outside-click path as well). -/
theorem C3_amended :
    (∀ s : DashState, (closeProductModal s).modalOpen = false ∧
      (closeProductModal s).currentEditId = s.currentEditId) ∧
    (∀ s : DashState, (addBtnClick s).currentEditId = none) ∧
    ((run initState [Event.editResolved 7 [sampleProduct], Event.clickOutsideModal]).modalOpen
        = false ∧
     (run initState [Event.editResolved 7 [sampleProduct], Event.clickOutsideModal]).currentEditId
        = some 7) := by
  refine ⟨fun s => ⟨rfl, rfl⟩, fun s => rfl, by decide⟩

/-- C4 (counterexample): a failed save with no JSON body shows the
connection-error message `Error de conexión`, not the generic per-operation
fallback `Error al guardar producto`, refuting the second half of the
claim. -/
theorem C4_counterexample :
    saveOnResponse { status := 400, json := none } =
      [Action.setMessage "Error de conexión" "error"] ∧
    Action.setMessage "Error al guardar producto" "error" ∉
      saveOnResponse { status := 400, json := none } := by
  decide

/-- C4 (amended): a failed save whose JSON body carries
`detail = "name taken"` shows `name taken`; a failed save whose JSON body
lacks a detail field shows the generic fallback `Error al guardar producto`;
a failed save with no JSON body at all shows the connection-error message
`Error de conexión`, because the `response.json()` rejection lands in the
`catch` block. -/
theorem C4_amended :
    (∀ r : Response, respOk r = false → ∀ b : DetailBody, r.json = some b →
      b.detail = some "name taken" →
      saveOnResponse r = [Action.setMessage "name taken" "error"]) ∧
    (∀ r : Response, respOk r = false → r.json = some { detail := none } →
      saveOnResponse r = [Action.setMessage "Error al guardar producto" "error"]) ∧
    (∀ r : Response, respOk r = false → r.json = none →
      saveOnResponse r = [Action.setMessage "Error de conexión" "error"]) := by
  refine ⟨?_, ?_, ?_⟩
  · intro r hok b hj hd
    simp [saveOnResponse, hok, hj, hd, jsOrStr, jsTruthyOptStr]
  · intro r hok hj
    simp [saveOnResponse, hok, hj, jsOrStr, jsTruthyOptStr]
  · intro r hok hj
    simp [saveOnResponse, hok, hj]

/-- C4 (witness): the amended behaviour at concrete failed-save responses. -/
theorem C4_amended_witness :
    saveOnResponse { status := 409, json := some { detail := some "name taken" } } =
      [Action.setMessage "name taken" "error"] ∧
    saveOnResponse { status := 409, json := some { detail := none } } =
      [Action.setMessage "Error al guardar producto" "error"] ∧
    saveOnResponse { status := 409, json := none } =
      [Action.setMessage "Error de conexión" "error"] :=
  ⟨C4_amended.1 _ rfl _ rfl rfl, C4_amended.2.1 _ rfl rfl, C4_amended.2.2 _ rfl rfl⟩

/-- C5: `showMessage` overwrites the single notification slot with the new
text and the class `message success`/`message error`; every scheduled clear
fires after its fixed 4000 ms and unconditionally resets the class,
regardless of any message shown in between. Concretely: a lone message is
still styled at 3999 ms and cleared at 4000 ms; and with a second message
shown at 3000 ms, the first message's timer blanks it at 4000 ms — well
before the second message's own clear at 7000 ms. -/
theorem C5_notification :
    (∀ (m : MsgState) (text type : String),
      stepMsg m (NEvent.show text type) = { text := text, cls := "message " ++ type }) ∧
    (∀ m : MsgState, (stepMsg m NEvent.fire).cls = "message" ∧
      (stepMsg m NEvent.fire).text = m.text) ∧
    ((displayAt [(0, "solo", "success")] 3999).cls = "message success" ∧
     (displayAt [(0, "solo", "success")] 4000).cls = "message") ∧
    (displayAt [(0, "primero", "success"), (3000, "segundo", "error")] 3500 =
      { text := "segundo", cls := "message error" } ∧
     (displayAt [(0, "primero", "success"), (3000, "segundo", "error")] 4500).cls =
      "message" ∧
     (displayAt [(0, "primero", "success"), (3000, "segundo", "error")] 4500).text =
      "segundo") := by
  refine ⟨fun m text type => rfl, fun m => ⟨rfl, rfl⟩, by decide, by decide⟩

/-- C6: submitting the product form with `currentEditId = null` targets
`POST /api/products`, and with `currentEditId = 7` targets
`PUT /api/products/7`. -/
theorem C6_save_target :
    saveRequestTarget none = ("POST", "/api/products") ∧
    saveRequestTarget (some 7) = ("PUT", "/api/products/7") := by
  decide

/-- C7: when `editProduct(id)`'s fetched list contains a product with that
id, the form is populated from it (`name` verbatim, `description || ''`,
`price || ''`) and the image input's required flag is left false, with the
modal opened on that id; the add button resets every form field, sets
`currentEditId` to null, and sets the image input's required flag true. -/
theorem C7_edit_and_create :
    (∀ (s : DashState) (id : Int) (ps : List Product) (p : Product),
      ps.find? (fun q => q.id == id) = some p →
      ((editProductResolved s id ps).form.name = p.name ∧
       (editProductResolved s id ps).form.description = jsOrStr p.description "" ∧
       (editProductResolved s id ps).form.price =
         (if jsTruthyOptRat p.price then p.price else none) ∧
       (editProductResolved s id ps).form.imageRequired = false ∧
       (editProductResolved s id ps).currentEditId = some id ∧
       (editProductResolved s id ps).modalOpen = true)) ∧
    (∀ s : DashState,
      (addBtnClick s).currentEditId = none ∧
      (addBtnClick s).form.name = "" ∧
      (addBtnClick s).form.description = "" ∧
      (addBtnClick s).form.price = none ∧
      (addBtnClick s).form.productId = "" ∧
      (addBtnClick s).form.imageRequired = true ∧
      (addBtnClick s).form.previewVisible = false ∧
      (addBtnClick s).modalOpen = true) := by
  constructor
  · intro s id ps p h
    simp [editProductResolved, h]
  · intro s
    exact ⟨rfl, rfl, rfl, rfl, rfl, rfl, rfl, rfl⟩

/-- C7 (witness): the edit path at a concrete state, id and product list. -/
theorem C7_witness :
    ([sampleProduct].find? (fun q => q.id == (7 : Int)) = some sampleProduct) ∧
    ((editProductResolved initState 7 [sampleProduct]).form.name = sampleProduct.name ∧
     (editProductResolved initState 7 [sampleProduct]).form.description =
       jsOrStr sampleProduct.description "" ∧
     (editProductResolved initState 7 [sampleProduct]).form.price =
       (if jsTruthyOptRat sampleProduct.price then sampleProduct.price else none) ∧
     (editProductResolved initState 7 [sampleProduct]).form.imageRequired = false ∧
     (editProductResolved initState 7 [sampleProduct]).currentEditId = some 7 ∧
     (editProductResolved initState 7 [sampleProduct]).modalOpen = true) :=
  ⟨rfl, C7_edit_and_create.1 initState 7 [sampleProduct] sampleProduct rfl⟩

/-- C8: a product whose price is 9.5 renders its card with the price line
`$9.50` — `toFixed(2)` formats to exactly two decimal places. -/
theorem C8_price_format (p : Product) (h : p.price = some (mkRat 19 2)) :
    renderCard p =
      cardHead p ++ descLine p ++ "<p><strong>$9.50</strong></p>" ++ cardTail p := by
  have hp : priceLine p = "<p><strong>$9.50</strong></p>" := by
    unfold priceLine
    rw [h]
    decide
  unfold renderCard
  rw [hp]

/-- C8 (witness): the 9.5-priced product's card at a concrete product. -/
theorem C8_price_format_witness :
    renderCard priceProduct =
      cardHead priceProduct ++ descLine priceProduct ++
        "<p><strong>$9.50</strong></p>" ++ cardTail priceProduct :=
  C8_price_format priceProduct rfl

/-- C9: when no product in the fetched list matches the requested id,
`editProduct` changes nothing: the whole UI state — modal, `currentEditId`,
form fields, notification — is exactly as before, and no message is
shown. -/
theorem C9_edit_not_found (s : DashState) (id : Int) (ps : List Product)
    (h : ∀ p ∈ ps, p.id ≠ id) : editProductResolved s id ps = s := by
  have hf : ps.find? (fun p => p.id == id) = none := by
    rw [List.find?_eq_none]
    intro x hx
    simpa using h x hx
  simp [editProductResolved, hf]

/-- C9 (witness): a concrete miss (id 3 against a list holding only id 7)
leaves the initial state untouched. -/
theorem C9_witness :
    (∀ p ∈ [sampleProduct], p.id ≠ (3 : Int)) ∧
    editProductResolved initState 3 [sampleProduct] = initState :=
  ⟨by decide, C9_edit_not_found initState 3 [sampleProduct] (by decide)⟩

/-- C10: the card template gates both optional lines on JS truthiness, so a
price of exactly 0 renders no price line at all, and an empty-string
description renders no description line. -/
theorem C10_truthiness_gates :
    (∀ p : Product, p.price = some 0 → priceLine p = "") ∧
    (∀ p : Product, p.description = some "" → descLine p = "") ∧
    (∀ p : Product, p.price = some 0 →
      renderCard p = cardHead p ++ descLine p ++ cardTail p) := by
  have hpl : ∀ p : Product, p.price = some 0 → priceLine p = "" := by
    intro p h
    unfold priceLine
    rw [h]
    rfl
  refine ⟨hpl, ?_, ?_⟩
  · intro p h
    unfold descLine
    rw [h]
    rfl
  · intro p h
    unfold renderCard
    rw [hpl p h]
    simp

/-- C10 (witness): a concrete zero-priced, empty-description product renders
with neither optional line. -/
theorem C10_witness :
    priceLine zeroPriceProduct = "" ∧
    descLine zeroPriceProduct = "" ∧
    renderCard zeroPriceProduct =
      cardHead zeroPriceProduct ++ descLine zeroPriceProduct ++ cardTail zeroPriceProduct :=
  ⟨C10_truthiness_gates.1 zeroPriceProduct rfl,
   C10_truthiness_gates.2.1 zeroPriceProduct rfl,
   C10_truthiness_gates.2.2 zeroPriceProduct rfl⟩

end Dashboard
